import Mathlib

set_option maxRecDepth 100000

/-!
Verification of the client handshake engine of a WebSocket library
(`src/client/builder.rs`).  The data model (header maps, parsed responses,
the client builder) and the operations the claims concern
(`build_request`, `validate`, the response read loop of `connect_on`)
are embedded shallowly below; machine integers are `Nat` with explicit
reduction modulo 2^32 where the source's arithmetic wraps.
-/

/-! ## SHA-1 and base64

The `Sec-WebSocket-Accept` computation (`WebSocketAccept::new` in the
`header` module) is not among the sources; per the spec it is
`base64(SHA1(sent_key ++ "258EAFA5-E914-47DA-95CA-C5AB0DC85B11"))`.
We implement SHA-1 (FIPS 180) and base64 concretely so the value can be
evaluated. -/

/-- Rotate a 32-bit word (represented as a `Nat` below `2^32`) left by `n`. -/
def rotl32 (n x : Nat) : Nat :=
  ((x <<< n) % 4294967296) ||| (x >>> (32 - n))

/-- Big-endian byte representation of `n` on `k` bytes. -/
def beBytes (k : Nat) (n : Nat) : List Nat :=
  match k with
  | 0 => []
  | j + 1 => beBytes j (n / 256) ++ [n % 256]

/-- Group a byte sequence into big-endian 32-bit words, four bytes each. -/
def sha1Words : List Nat → List Nat
  | a :: b :: c :: d :: rest => (((a * 256 + b) * 256 + c) * 256 + d) :: sha1Words rest
  | _ => []

/-- SHA-1 padding: append `0x80`, zeros, and the 64-bit big-endian bit length
so the total length is a multiple of 64 bytes. -/
def sha1Pad (msg : List Nat) : List Nat :=
  let len := msg.length
  let zeros := (119 - len % 64) % 64
  msg ++ [128] ++ List.replicate zeros 0 ++ beBytes 8 (len * 8)

/-- SHA-1 round constants. -/
def sha1K (t : Nat) : Nat :=
  if t < 20 then 1518500249
  else if t < 40 then 1859775393
  else if t < 60 then 2400959708
  else 3395469782

/-- SHA-1 round functions (Ch, Parity, Maj, Parity). -/
def sha1F (t b c d : Nat) : Nat :=
  if t < 20 then (b &&& c) ||| ((b ^^^ 4294967295) &&& d)
  else if t < 40 then b ^^^ c ^^^ d
  else if t < 60 then (b &&& c) ||| (b &&& d) ||| (c &&& d)
  else b ^^^ c ^^^ d

/-- Extend the 16-word message schedule by `count` further words. -/
def sha1ExtendW (ws : List Nat) (count : Nat) : List Nat :=
  match count with
  | 0 => ws
  | c + 1 =>
    let i := ws.length
    let w := rotl32 1 ((ws.getD (i - 3) 0) ^^^ (ws.getD (i - 8) 0) ^^^
      (ws.getD (i - 14) 0) ^^^ (ws.getD (i - 16) 0))
    sha1ExtendW (ws ++ [w]) c

/-- Run `count` SHA-1 rounds starting at round `t` on state `(a,b,c,d,e)`. -/
def sha1Rounds :
    Nat → List Nat → Nat → Nat × Nat × Nat × Nat × Nat → Nat × Nat × Nat × Nat × Nat
  | 0, _, _, st => st
  | c + 1, ws, t, (a, b, cc, d, e) =>
    let temp := (rotl32 5 a + sha1F t b cc d + e + sha1K t + ws.getD t 0) % 4294967296
    sha1Rounds c ws (t + 1) (temp, a, rotl32 30 b, cc, d)

/-- Compress one 16-word block into the running hash state. -/
def sha1Block (h : Nat × Nat × Nat × Nat × Nat) (block : List Nat) :
    Nat × Nat × Nat × Nat × Nat :=
  let ws := sha1ExtendW block 64
  let (h0, h1, h2, h3, h4) := h
  let (a, b, c, d, e) := sha1Rounds 80 ws 0 (h0, h1, h2, h3, h4)
  ((h0 + a) % 4294967296, (h1 + b) % 4294967296, (h2 + c) % 4294967296,
    (h3 + d) % 4294967296, (h4 + e) % 4294967296)

/-- Fold the compression function over the message words, 16 words per block. -/
def sha1Blocks (h : Nat × Nat × Nat × Nat × Nat) :
    List Nat → Nat × Nat × Nat × Nat × Nat
  | w0 :: w1 :: w2 :: w3 :: w4 :: w5 :: w6 :: w7 ::
      w8 :: w9 :: w10 :: w11 :: w12 :: w13 :: w14 :: w15 :: rest =>
    sha1Blocks
      (sha1Block h [w0, w1, w2, w3, w4, w5, w6, w7, w8, w9, w10, w11, w12, w13, w14, w15])
      rest
  | _ => h

/-- SHA-1 digest (20 bytes) of a byte sequence. -/
def sha1 (msg : List Nat) : List Nat :=
  let hs := sha1Blocks (1732584193, 4023233417, 2562383102, 271733878, 3285377520)
    (sha1Words (sha1Pad msg))
  match hs with
  | (h0, h1, h2, h3, h4) =>
    beBytes 4 h0 ++ beBytes 4 h1 ++ beBytes 4 h2 ++ beBytes 4 h3 ++ beBytes 4 h4

/-- Character `n` (0..63) of the standard base64 alphabet. -/
def b64Char (n : Nat) : Char :=
  "ABCDEFGHIJKLMNOPQRSTUVWXYZabcdefghijklmnopqrstuvwxyz0123456789+/".toList.getD n 'A'

/-- Base64-encode a byte sequence (standard alphabet, with padding). -/
def base64Chars : List Nat → List Char
  | [] => []
  | [a] => [b64Char (a / 4), b64Char ((a % 4) * 16), '=', '=']
  | [a, b] => [b64Char (a / 4), b64Char ((a % 4) * 16 + b / 16), b64Char ((b % 16) * 4), '=']
  | a :: b :: c :: rest =>
    b64Char (a / 4) :: b64Char ((a % 4) * 16 + b / 16) ::
      b64Char ((b % 16) * 4 + c / 64) :: b64Char (c % 64) :: base64Chars rest

/-- Base64-encode a byte sequence into a string. -/
def base64Encode (bs : List Nat) : String := String.mk (base64Chars bs)

/-- Bytes of an ASCII string. -/
def strBytes (s : String) : List Nat := s.toList.map Char.toNat

/-- ASCII lowercasing of one character. -/
def charLower (c : Char) : Char :=
  if 'A' ≤ c ∧ c ≤ 'Z' then Char.ofNat (c.toNat + 32) else c

/-- Model of `str::to_lowercase` on the ASCII header values the handshake
compares (Unicode outside A-Z is untouched on these inputs). -/
def strLower (s : String) : String := String.mk (s.toList.map charLower)

/-- Modelled from the spec: `WebSocketAccept::new` lives in the `header`
module, which is not among the sources.  The spec defines the accept value as
`base64(SHA1(sent_key ++ "258EAFA5-E914-47DA-95CA-C5AB0DC85B11"))`, the
`sent_key` being the base64-encoded key exactly as transmitted. -/
def wsAccept (key : String) : String :=
  base64Encode (sha1 (strBytes key ++ strBytes "258EAFA5-E914-47DA-95CA-C5AB0DC85B11"))

example : base64Encode (strBytes "the sample nonce") = "dGhlIHNhbXBsZSBub25jZQ==" := by rfl

example : wsAccept "dGhlIHNhbXBsZSBub25jZQ==" = "s3pPLMBiTxaQ9kYGzzhZRbK+xOo=" := by rfl

/-! ## Data model

Header maps model `http::HeaderMap`: names are stored lowercased (as
`HeaderName` normalises them), `get` returns the first value for a name and
`insert` replaces all values of that name.  `Url` models the parts of a parsed
`url::Url` the builder reads: `port` is the result of `Url::port()` (which is
`None` when the port is absent or is the scheme's default), `path` and `query`
the serialised path and query. -/

abbrev HeaderMap := List (String × String)

/-- First value stored under `name` (`HeaderMap::get`). -/
def HeaderMap.get (hs : HeaderMap) (name : String) : Option String :=
  match hs with
  | [] => none
  | p :: rest => if p.1 = name then some p.2 else HeaderMap.get rest name

/-- Drop every entry stored under `name`. -/
def HeaderMap.eraseAll (hs : HeaderMap) (name : String) : HeaderMap :=
  match hs with
  | [] => []
  | p :: rest =>
    if p.1 = name then HeaderMap.eraseAll rest name
    else p :: HeaderMap.eraseAll rest name

/-- Replace all values under `name` by the single `value` (`HeaderMap::insert`). -/
def HeaderMap.insert (hs : HeaderMap) (name value : String) : HeaderMap :=
  (name, value) :: hs.eraseAll name

/-- Merge another header map in (`HeaderMap::extend`): later values replace
earlier ones key by key. -/
def HeaderMap.extend (hs other : HeaderMap) : HeaderMap :=
  other.foldl (fun acc p => acc.insert p.1 p.2) hs

/-- HTTP version as stored in the builder and in a parsed response
(`connect_on` maps the `httparse` minor version to 1.1 or 1.0). -/
inductive HttpVersion where
  | http10
  | http11
deriving DecidableEq

/-- Debug rendering of `http::Version`, as interpolated by
`write!(stream, "GET {} {:?}\r\n", resource, self.version)`. -/
def versionDebug : HttpVersion → String
  | .http10 => "HTTP/1.0"
  | .http11 => "HTTP/1.1"

/-- The parts of a parsed `url::Url` read by the client builder. -/
structure Url where
  scheme : String
  host : Option String
  port : Option Nat
  path : String
  query : Option String
deriving DecidableEq

/-- The slice `self.url[Position::BeforePath..Position::AfterQuery]`: the
serialised path followed by `?query` when a query is present.  For the
special schemes (`ws`, `wss`) the `url` crate serialises an empty path
as `/`. -/
def Url.slicePathQuery (u : Url) : String :=
  (if u.path = "" then "/" else u.path) ++
    (match u.query with
     | some q => "?" ++ q
     | none => "")

/-- `codec::http::ResponseHead`: the parsed handshake response. -/
structure ResponseHead where
  version : HttpVersion
  subject : Nat
  headers : HeaderMap
deriving DecidableEq

/-- The error variants of `WebSocketError` exercised by `validate`. -/
inductive WebSocketError where
  | ResponseError (msg : String)
  | RequestError (msg : String)
deriving DecidableEq

/-- `ClientBuilder`: url, HTTP version, header map and the two flags recording
whether the dedicated `version`/`key` builder methods were used. -/
structure ClientBuilder where
  url : Url
  version : HttpVersion
  headers : HeaderMap
  version_set : Bool
  key_set : Bool
deriving DecidableEq

/-- `ClientBuilder::init`: fresh builder for a parsed URL. -/
def ClientBuilder.init (u : Url) : ClientBuilder :=
  { url := u, version := .http11, headers := [], version_set := false, key_set := false }

/-- `ClientBuilder::add_protocols`: stores the comma-joined protocol list under
`Sec-WebSocket-Protocol` (the `WebSocketProtocol` header serialisation). -/
def ClientBuilder.add_protocols (b : ClientBuilder) (protocols : List String) : ClientBuilder :=
  { b with headers := b.headers.insert "sec-websocket-protocol" (String.intercalate ", " protocols) }

/-- `ClientBuilder::key`: set a custom 16-byte `Sec-WebSocket-Key` (stored
base64-encoded, as `WebSocketKey` serialises) and record that it was set. -/
def ClientBuilder.key (b : ClientBuilder) (k : List Nat) : ClientBuilder :=
  { b with headers := b.headers.insert "sec-websocket-key" (base64Encode k), key_set := true }

/-- `ClientBuilder::custom_headers`: extend the builder's headers. -/
def ClientBuilder.custom_headers (b : ClientBuilder) (hs : HeaderMap) : ClientBuilder :=
  { b with headers := b.headers.extend hs }

/-- `ClientBuilder::build_request` (lines 856-907): insert `Host` (the port is
omitted on `None | Some(80) | Some(443)`), `Connection: Upgrade`,
`Upgrade: websocket`, and — unless the dedicated builder methods were used —
`Sec-WebSocket-Version: 13` and a generated `Sec-WebSocket-Key`.  The 16
random bytes `WebSocketKey::new()` draws are passed in as `randomKey`.
Returns the updated builder and the resource
`self.url[Position::BeforePath..Position::AfterQuery]`. -/
def ClientBuilder.build_request (b : ClientBuilder) (randomKey : List Nat) :
    ClientBuilder × String :=
  let hs := b.headers
  let hs := match b.url.host with
    | some host =>
      hs.insert "host"
        (match b.url.port with
         | none => host
         | some 80 => host
         | some 443 => host
         | some p => host ++ ":" ++ toString p)
    | none => hs
  let hs := hs.insert "connection" "Upgrade"
  let hs := hs.insert "upgrade" "websocket"
  let hs := if b.version_set then hs else hs.insert "sec-websocket-version" "13"
  let hs := if b.key_set then hs else hs.insert "sec-websocket-key" (base64Encode randomKey)
  ({ b with headers := hs }, b.url.slicePathQuery)

/-- `ClientBuilder::validate` (lines 909-968), checked in source order:
status must be 101; the builder must hold a `Sec-WebSocket-Key`; the
response's `Sec-WebSocket-Accept` must equal the computed accept value; the
response's `Upgrade`, lowercased, must equal `websocket`; and the
`Connection` comparison — which the source performs against
`self.headers`, the client's own outgoing headers, not the response's —
must yield the serialised `Connection(vec![Upgrade])` value. -/
def ClientBuilder.validate (b : ClientBuilder) (response : ResponseHead) :
    Except WebSocketError Unit :=
  if response.subject ≠ 101 then
    .error (.ResponseError "Status code must be Switching Protocols")
  else
    match b.headers.get "sec-websocket-key" with
    | none => .error (.RequestError "Request Sec-WebSocket-Key was invalid")
    | some key =>
      if response.headers.get "sec-websocket-accept" ≠ some (wsAccept key) then
        .error (.ResponseError "Sec-WebSocket-Accept is invalid")
      else if (response.headers.get "upgrade").map strLower ≠ some "websocket" then
        .error (.ResponseError "Upgrade field must be WebSocket")
      else if b.headers.get "connection" ≠ some "Upgrade" then
        .error (.ResponseError "Connection field must be 'Upgrade'")
      else
        .ok ()

/-- The bytes `connect_on` writes before reading the response (lines 450-453):
`write!(stream, "GET {} {:?}\r\n", resource, self.version)` followed by
`write!(stream, "{:?}\r\n", self.headers)`.  The `Debug` rendering of the
`http::HeaderMap` is external; it is passed in as `headerDump`. -/
def ClientBuilder.connect_on_writes (b : ClientBuilder) (randomKey : List Nat)
    (headerDump : String) : String :=
  let resource := (b.build_request randomKey).2
  "GET " ++ resource ++ " " ++ versionDebug b.version ++ "\r\n" ++ headerDump ++ "\r\n"

/-! ## The response read loop of `connect_on`

Lines 456-464 of the source:

  let mut buf = String::new();
  let mut reader = BufReader::new(stream);
  loop {
      reader.read_line(&mut buf).unwrap();
      if &buf[buf.len() - 4..] == "CR LF CR LF" { break; }
  }

The stream is modelled byte-exactly: `bytes` are the bytes it will deliver,
and after them it either reports end-of-file (`errAfter = false`, reads
return 0 bytes) or raises an I/O error (`errAfter = true`).  `read_line`
models `BufRead::read_line`: it returns one line up to and including a
newline, the remaining bytes at end-of-file, or the I/O error (on the error
path the partially appended bytes are irrelevant: the caller's `unwrap`
aborts).  The loop itself is modelled with explicit fuel; `aborted` covers
the two abort paths of the source, `unwrap` on an `Err` and the slice
`&buf[buf.len() - 4..]` whose start index underflows when `buf` holds fewer
than four bytes. -/

structure InStream where
  bytes : List Nat
  errAfter : Bool
deriving DecidableEq

/-- Split off the first line: everything up to and including the first
newline byte, and the rest. -/
def splitLine : List Nat → List Nat × List Nat
  | [] => ([], [])
  | b :: rest =>
    if b = 10 then ([10], rest)
    else
      let p := splitLine rest
      (b :: p.1, p.2)

inductive ReadLineResult where
  | ok (line : List Nat) (rest : InStream)
  | ioErr
deriving DecidableEq

/-- `BufRead::read_line` on the modelled stream. -/
def read_line (s : InStream) : ReadLineResult :=
  let p := splitLine s.bytes
  if p.1.getLast? = some 10 then .ok p.1 { bytes := p.2, errAfter := s.errAfter }
  else if s.errAfter then .ioErr
  else .ok p.1 { bytes := [], errAfter := false }

inductive HsOutcome where
  | aborted
  | done (buf : List Nat)
  | running
deriving DecidableEq

/-- The read loop of `connect_on` with explicit fuel.  Each iteration appends
one `read_line` result to `buf` and breaks when the last four bytes are
CR LF CR LF; `aborted` is produced by `unwrap` on an I/O error and by the
slice-index underflow when `buf` holds fewer than four bytes. -/
def response_read_loop : Nat → List Nat → InStream → HsOutcome
  | 0, _, _ => .running
  | fuel + 1, buf, s =>
    match read_line s with
    | .ioErr => .aborted
    | .ok line rest =>
      let buf2 := buf ++ line
      if buf2.length < 4 then .aborted
      else if buf2.drop (buf2.length - 4) = [13, 10, 13, 10] then .done buf2
      else response_read_loop fuel buf2 rest

/-! ## Concrete fixtures

The RFC 6455 sample key, a sample URL, and builders and responses used to
evaluate the embedded operations at concrete inputs. -/

/-- The 16 ASCII bytes `the sample nonce` of the RFC 6455 example. -/
def sampleKeyBytes : List Nat := strBytes "the sample nonce"

def sampleUrl : Url :=
  { scheme := "ws", host := some "test.ws", port := none, path := "/", query := none }

/-- A builder that offered the sample key, after `build_request` ran (as it
has by the time `validate` is called from `connect_on`). -/
def sampleBuilder : ClientBuilder :=
  (((ClientBuilder.init sampleUrl).key sampleKeyBytes).build_request []).1

/-- The accept value the RFC 6455 example expects for the sample key. -/
def sampleAccept : String := "s3pPLMBiTxaQ9kYGzzhZRbK+xOo="

/-- A response with status 101, a valid `Upgrade` and a valid
`Sec-WebSocket-Accept`, but no `Connection` header at all. -/
def respNoConnection : ResponseHead :=
  { version := .http11, subject := 101,
    headers := [("upgrade", "websocket"), ("sec-websocket-accept", sampleAccept)] }

/-- A builder that offered only the protocol `pubsub` (and the sample key),
after `build_request` ran. -/
def protoBuilder : ClientBuilder :=
  ((((ClientBuilder.init sampleUrl).add_protocols ["pubsub"]).key sampleKeyBytes).build_request
    []).1

/-- An otherwise valid response that selects the protocol `evil`, which was
never offered. -/
def protoResponse : ResponseHead :=
  { version := .http11, subject := 101,
    headers := [("upgrade", "websocket"), ("sec-websocket-protocol", "evil"),
                ("connection", "Upgrade"), ("sec-websocket-accept", sampleAccept)] }

/-- A fully valid response that was parsed as HTTP/1.0. -/
def resp10 : ResponseHead :=
  { version := .http10, subject := 101,
    headers := [("upgrade", "websocket"), ("connection", "Upgrade"),
                ("sec-websocket-accept", sampleAccept)] }

/-- A `ws` URL with the explicit, non-default port 443 (`Url::port()` keeps
it, since the default port of `ws` is 80). -/
def cexUrl : Url :=
  { scheme := "ws", host := some "h", port := some 443, path := "/", query := none }

/-- A `ws` URL with the explicit port 8080. -/
def cexUrl2 : Url :=
  { scheme := "ws", host := some "h", port := some 8080, path := "/", query := none }

/-! ## Header map lemmas -/

theorem HeaderMap.get_eraseAll (hs : HeaderMap) (n m : String) (h : n ≠ m) :
    (hs.eraseAll n).get m = hs.get m := by
  induction hs with
  | nil => rfl
  | cons p t ih =>
    by_cases hp : p.1 = n
    · simp [HeaderMap.eraseAll, HeaderMap.get, hp, h, ih]
    · simp only [HeaderMap.eraseAll, if_neg hp, HeaderMap.get]
      by_cases hm : p.1 = m
      · simp [hm]
      · simp [hm, ih]

theorem HeaderMap.get_insert (hs : HeaderMap) (n v m : String) :
    (hs.insert n v).get m = if n = m then some v else hs.get m := by
  by_cases h : n = m
  · simp [HeaderMap.insert, HeaderMap.get, h]
  · simp [HeaderMap.insert, HeaderMap.get, h, HeaderMap.get_eraseAll hs n m h]

/-! ## Claims -/

/-- C1: the claim reads: validation succeeds only if the RESPONSE's
`Connection` header contains the option `Upgrade`; a response whose
`Connection` header is absent must be rejected.  The source instead compares
`self.headers` — the client's own outgoing headers, which always contain
`Connection: Upgrade` after `build_request` — so a response with no
`Connection` header at all passes validation: the code contradicts the
claim (and the spec itself flags this as a bug of the source). -/
theorem c1_missing_connection_accepted :
    ClientBuilder.validate sampleBuilder respNoConnection = .ok () := by rfl

/-- C2: the claim reads: `connect_on` never panics, I/O errors are returned
as error values.  The source's response read loop calls
`reader.read_line(&mut buf).unwrap()`, so a stream whose first read raises an
I/O error aborts the process instead of returning the error: for any fuel,
the modelled loop reaches the `unwrap` abort. -/
theorem c2_io_error_aborts (n : Nat) :
    response_read_loop (n + 1) [] { bytes := [], errAfter := true } = .aborted := by rfl

/-- C5: the claim reads: a stream hitting end-of-file before CR LF CR LF
makes the handshake terminate with an error.  The source's loop instead
never terminates on such a stream: `read_line` keeps returning `Ok(0)` at
end-of-file, the buffer never changes, and the break condition stays false —
for every fuel bound the loop is still running (with a buffer shorter than
four bytes it would abort on the slice-index underflow instead; it returns
an error on no path). -/
theorem c5_eof_truncated_loops (fuel : Nat) :
    response_read_loop fuel []
      { bytes := strBytes "HTTP/1.1 101 OK\r\n", errAfter := false } = .running := by
  have aux : ∀ (k : Nat) (buf : List Nat), 4 ≤ buf.length →
      buf.drop (buf.length - 4) ≠ [13, 10, 13, 10] →
      response_read_loop k buf { bytes := [], errAfter := false } = .running := by
    intro k
    induction k with
    | zero => intro buf _ _; rfl
    | succ m ih =>
      intro buf h1 h2
      have step : response_read_loop (m + 1) buf { bytes := [], errAfter := false } =
          (if (buf ++ []).length < 4 then HsOutcome.aborted
           else if (buf ++ []).drop ((buf ++ []).length - 4) = [13, 10, 13, 10] then
             HsOutcome.done (buf ++ [])
           else response_read_loop m (buf ++ []) { bytes := [], errAfter := false }) := rfl
      rw [step]
      simp only [List.append_nil]
      rw [if_neg (by omega), if_neg h2]
      exact ih buf h1 h2
  cases fuel with
  | zero => rfl
  | succ m =>
    have step : response_read_loop (m + 1) []
        { bytes := strBytes "HTTP/1.1 101 OK\r\n", errAfter := false } =
        response_read_loop m (strBytes "HTTP/1.1 101 OK\r\n")
          { bytes := [], errAfter := false } := by rfl
    rw [step]
    exact aux m _ (by decide) (by decide)

/-- C3: the claim reads: if protocols or extensions were offered, validation
fails for every response selecting values not offered.  The source's
`validate` never inspects `Sec-WebSocket-Protocol` or
`Sec-WebSocket-Extensions`: a builder that offered only `pubsub` accepts an
otherwise valid response selecting the never-offered protocol `evil`. -/
theorem c3_unoffered_protocol_accepted :
    ClientBuilder.validate protoBuilder protoResponse = .ok () := by rfl

/-- C3 (amended): response validation ignores `Sec-WebSocket-Protocol` and
`Sec-WebSocket-Extensions` entirely: overriding both headers with arbitrary
values in the response never changes the result of `validate`. -/
theorem c3_amended_subset_never_checked (b : ClientBuilder) (r : ResponseHead)
    (pv ev : String) :
    ClientBuilder.validate b
      { version := r.version, subject := r.subject,
        headers := (r.headers.insert "sec-websocket-protocol" pv).insert
          "sec-websocket-extensions" ev } =
    ClientBuilder.validate b r := by
  unfold ClientBuilder.validate
  simp only [HeaderMap.get_insert]
  rw [if_neg (by decide : ¬("sec-websocket-extensions" = "sec-websocket-accept")),
    if_neg (by decide : ¬("sec-websocket-protocol" = "sec-websocket-accept")),
    if_neg (by decide : ¬("sec-websocket-extensions" = "upgrade")),
    if_neg (by decide : ¬("sec-websocket-protocol" = "upgrade"))]

/-- C4: validation succeeds only if the response's `Sec-WebSocket-Accept`
equals `base64(SHA1(sent_key ++ "258EAFA5-E914-47DA-95CA-C5AB0DC85B11"))`
(modelled from the spec, the `header` module being external); for the sample
key `dGhlIHNhbXBsZSBub25jZQ==` that value is `s3pPLMBiTxaQ9kYGzzhZRbK+xOo=`. -/
theorem c4_accept_must_match (b : ClientBuilder) (r : ResponseHead) (k : String)
    (hok : ClientBuilder.validate b r = .ok ())
    (hkey : b.headers.get "sec-websocket-key" = some k) :
    r.headers.get "sec-websocket-accept" = some (wsAccept k) ∧
    wsAccept "dGhlIHNhbXBsZSBub25jZQ==" = "s3pPLMBiTxaQ9kYGzzhZRbK+xOo=" := by
  refine ⟨?_, by rfl⟩
  unfold ClientBuilder.validate at hok
  split at hok
  · exact absurd hok (by simp)
  · rw [hkey] at hok
    simp only [] at hok
    split at hok
    · exact absurd hok (by simp)
    · next hacc => exact not_not.mp hacc

/-- C4 witness: the theorem applied to the sample builder and a response
carrying exactly the RFC 6455 accept value. -/
theorem c4_accept_must_match_witness :
    HeaderMap.get respNoConnection.headers "sec-websocket-accept" =
      some (wsAccept (base64Encode sampleKeyBytes)) ∧
    wsAccept "dGhlIHNhbXBsZSBub25jZQ==" = "s3pPLMBiTxaQ9kYGzzhZRbK+xOo=" :=
  c4_accept_must_match sampleBuilder respNoConnection (base64Encode sampleKeyBytes)
    (by rfl) (by rfl)

/-- C7: `validate` returns the status error for every response whose status
code differs from 101, and validation can only succeed when the status code
is exactly 101. -/
theorem c7_status_must_be_101 (b : ClientBuilder) (r : ResponseHead) :
    (r.subject ≠ 101 →
      ClientBuilder.validate b r =
        .error (.ResponseError "Status code must be Switching Protocols")) ∧
    (ClientBuilder.validate b r = .ok () → r.subject = 101) := by
  constructor
  · intro h
    unfold ClientBuilder.validate
    rw [if_pos h]
  · intro hok
    by_contra h
    unfold ClientBuilder.validate at hok
    rw [if_pos h] at hok
    exact absurd hok (by simp)

/-- C7 witness: a response with status 200 is rejected with the status
error. -/
theorem c7_status_must_be_101_witness :
    ClientBuilder.validate sampleBuilder { version := .http11, subject := 200, headers := [] } =
      .error (.ResponseError "Status code must be Switching Protocols") :=
  (c7_status_must_be_101 sampleBuilder
    { version := .http11, subject := 200, headers := [] }).1 (by decide)

/-- C10: `validate` never reads the response's HTTP version: changing only
the version field changes nothing; in particular a response parsed as
HTTP/1.0 with status 101 and valid headers is accepted. -/
theorem c10_version_ignored :
    (∀ (b : ClientBuilder) (r : ResponseHead) (v : HttpVersion),
      ClientBuilder.validate b { version := v, subject := r.subject, headers := r.headers } =
        ClientBuilder.validate b r) ∧
    ClientBuilder.validate sampleBuilder resp10 = .ok () :=
  ⟨fun _ _ _ => rfl, by rfl⟩

/-- C6: the bytes the client handshake writes begin with the request line
`GET <resource> HTTP/1.1` followed by CR LF, where `<resource>` is the URL's
path-plus-query, or `/` if the URL's path is empty (the builder's HTTP
version is `HTTP_11` from construction and no method changes it). -/
theorem c6_request_line (b : ClientBuilder) (randomKey : List Nat) (headerDump : String)
    (hv : b.version = .http11) :
    ∃ rest, ClientBuilder.connect_on_writes b randomKey headerDump =
      "GET " ++ ((if b.url.path = "" then "/" else b.url.path) ++
        (match b.url.query with
         | some q => "?" ++ q
         | none => "")) ++ " HTTP/1.1\r\n" ++ rest := by
  refine ⟨headerDump ++ "\r\n", ?_⟩
  show "GET " ++ b.url.slicePathQuery ++ " " ++ versionDebug b.version ++ "\r\n" ++
      headerDump ++ "\r\n" = _
  rw [hv]
  have hmid : ∀ X : String, " " ++ ("HTTP/1.1" ++ ("\r\n" ++ X)) = " HTTP/1.1\r\n" ++ X := by
    intro X
    rw [← String.append_assoc, ← String.append_assoc]
    rfl
  simp only [versionDebug, Url.slicePathQuery, String.append_assoc, hmid]

/-- C6 witness: the theorem at a concrete builder. -/
theorem c6_request_line_witness :
    ∃ rest, ClientBuilder.connect_on_writes (ClientBuilder.init sampleUrl) [] "hdrs" =
      "GET " ++ ((if sampleUrl.path = "" then "/" else sampleUrl.path) ++
        (match sampleUrl.query with
         | some q => "?" ++ q
         | none => "")) ++ " HTTP/1.1\r\n" ++ rest :=
  c6_request_line (ClientBuilder.init sampleUrl) [] "hdrs" (by rfl)

/-- C8: whatever `custom_headers` contained for those names, after
`build_request` the computed values stand: `Connection: Upgrade`,
`Upgrade: websocket`, and — the dedicated `version`/`key` builder methods
not having been used — `Sec-WebSocket-Version: 13` and the freshly generated
key. -/
theorem c8_computed_headers_win (b : ClientBuilder) (cb : HeaderMap) (randomKey : List Nat)
    (hv : b.version_set = false) (hk : b.key_set = false) :
    (((b.custom_headers cb).build_request randomKey).1.headers.get "connection" =
        some "Upgrade") ∧
    (((b.custom_headers cb).build_request randomKey).1.headers.get "upgrade" =
        some "websocket") ∧
    (((b.custom_headers cb).build_request randomKey).1.headers.get "sec-websocket-version" =
        some "13") ∧
    (((b.custom_headers cb).build_request randomKey).1.headers.get "sec-websocket-key" =
        some (base64Encode randomKey)) := by
  have h1 : (b.custom_headers cb).version_set = false := hv
  have h2 : (b.custom_headers cb).key_set = false := hk
  refine ⟨?_, ?_, ?_, ?_⟩ <;>
    simp [ClientBuilder.build_request, h1, h2, HeaderMap.get_insert]

/-- C8 witness: a custom-header map that tries to override all four computed
headers, and fails to. -/
theorem c8_computed_headers_win_witness :
    ((((ClientBuilder.init sampleUrl).custom_headers
        [("upgrade", "h2c"), ("connection", "close"), ("sec-websocket-version", "99"),
          ("sec-websocket-key", "forged")]).build_request
        sampleKeyBytes).1.headers.get "connection" = some "Upgrade") ∧
    ((((ClientBuilder.init sampleUrl).custom_headers
        [("upgrade", "h2c"), ("connection", "close"), ("sec-websocket-version", "99"),
          ("sec-websocket-key", "forged")]).build_request
        sampleKeyBytes).1.headers.get "upgrade" = some "websocket") ∧
    ((((ClientBuilder.init sampleUrl).custom_headers
        [("upgrade", "h2c"), ("connection", "close"), ("sec-websocket-version", "99"),
          ("sec-websocket-key", "forged")]).build_request
        sampleKeyBytes).1.headers.get "sec-websocket-version" = some "13") ∧
    ((((ClientBuilder.init sampleUrl).custom_headers
        [("upgrade", "h2c"), ("connection", "close"), ("sec-websocket-version", "99"),
          ("sec-websocket-key", "forged")]).build_request
        sampleKeyBytes).1.headers.get "sec-websocket-key" =
        some (base64Encode sampleKeyBytes)) :=
  c8_computed_headers_win (ClientBuilder.init sampleUrl)
    [("upgrade", "h2c"), ("connection", "close"), ("sec-websocket-version", "99"),
      ("sec-websocket-key", "forged")] sampleKeyBytes (by rfl) (by rfl)

/-- C9: the claim reads: the port is omitted exactly for 80 on `ws` and 443
on `wss`, and for any other explicit port `Host` is `host:port`.  The source
omits the port whenever `Url::port()` yields `None`, `Some(80)` or
`Some(443)` regardless of scheme: for the `ws` URL with the explicit,
non-default port 443 the `Host` header is `h`, not `h:443` as the claim
demands. -/
theorem c9_ws_port_443_omitted :
    (((ClientBuilder.init cexUrl).build_request []).1.headers.get "host" = some "h") ∧
    (((ClientBuilder.init cexUrl).build_request []).1.headers.get "host" ≠ some "h:443") := by
  exact ⟨by rfl, by decide⟩

/-- C9 (amended): the `Host` header omits the port when `Url::port()` is
absent (no port, or the scheme's default) or when the explicit port is 80 or
443 on either scheme; for every other explicit port it is `host:port`. -/
theorem c9_amended_host_port (b : ClientBuilder) (randomKey : List Nat) (h : String)
    (hh : b.url.host = some h) :
    ((b.url.port = none ∨ b.url.port = some 80 ∨ b.url.port = some 443) →
      ((b.build_request randomKey).1.headers.get "host") = some h) ∧
    (∀ p : Nat, b.url.port = some p → p ≠ 80 → p ≠ 443 →
      ((b.build_request randomKey).1.headers.get "host") =
        some (h ++ ":" ++ toString p)) := by
  have base : ((b.build_request randomKey).1).headers.get "host" =
      some (match b.url.port with
            | none => h
            | some 80 => h
            | some 443 => h
            | some p => h ++ ":" ++ toString p) := by
    by_cases hbv : b.version_set <;> by_cases hbk : b.key_set <;>
      simp [ClientBuilder.build_request, hh, hbv, hbk, HeaderMap.get_insert]
  constructor
  · intro hp
    rw [base]
    rcases hp with hp | hp | hp <;> rw [hp]
  · intro p hp h80 h443
    rw [base, hp]
    split <;> simp_all

/-- C9 witness: the amended statement at the `ws` URL with explicit
port 8080. -/
theorem c9_amended_host_port_witness :
    ((ClientBuilder.init cexUrl2).build_request []).1.headers.get "host" =
      some ("h" ++ ":" ++ toString 8080) :=
  (c9_amended_host_port (ClientBuilder.init cexUrl2) [] "h" (by rfl)).2 8080 (by rfl)
    (by decide) (by decide)
